import Mathlib

/-!
Shallow embedding of the windowed sampling engine of `gen_reads.py`
(NEAT-genReads V3.0) and proofs about the behaviour its specification
describes.  Python integers are modelled as `ℤ`/`ℕ`, Python floats as `ℚ`,
Python lists as `List`.  Functions from the repository modules that are not
part of the main script (`source/input_checking.py`, `source/vcf_func.py`,
`source/probability.py`, `source/SequenceContainer.py`, ...) are modelled
from the specification and marked as such in their doc comments.
-/

/-- Python `int()` applied to a rational value: truncation toward zero. -/
def pyint (q : ℚ) : ℤ := if 0 ≤ q then ⌊q⌋ else ⌈q⌉

/-- Python `range(a, b)` over integers, as the list `[a, a+1, ..., b-1]`. -/
def pyrange (a b : ℤ) : List ℤ := (List.range (b - a).toNat).map (fun i => a + i)

/-- Python `bisect.bisect(l, x)` (bisect_right) on a sorted list of integers:
the number of elements that are `≤ x`. -/
def pybisect (l : List ℤ) (x : ℤ) : ℕ := l.countP (fun e => decide (e ≤ x))

/-- Python `max(l)` over a list of integers; Python raises on an empty list,
which is modelled by the (never reached) default `l.headD 0`. -/
def pymaxZ (l : List ℤ) : ℤ := l.foldl max (l.headD 0)

/-! ## CIGAR strings (data model §3, SequenceContainer §4.6)

A CIGAR operation string is modelled as its per-base expansion, one
`CigarOp` per emitted operation, as stored in `sequences.all_cigar[ploid]`.
`M` and `I` consume a read base, `D` does not. -/

/-- Operations of a CIGAR string: match/mismatch, insertion, deletion. -/
inductive CigarOp where
  | M : CigarOp
  | I : CigarOp
  | D : CigarOp
  deriving DecidableEq, Repr

/-- Number of read bases consumed by a CIGAR string: the total count of its
`M` and `I` operations (data model §3). -/
def consumed_read_bases (c : List CigarOp) : ℕ := c.count CigarOp.M + c.count CigarOp.I

/-- Embedding of the CIGAR sanity check of `gen_reads.py` lines 584-585 and
592-593: the run aborts (`sys.exit(1)`) when `sequences.all_cigar[0]` or
`sequences.all_cigar[1]` contains a cigar whose length differs from the
literal constant `100`.  Python's `all_cigar[0]` / `all_cigar[1]` indexing is
modelled with `getD`. -/
def cigar_check_fires (all_cigar : List (List (List CigarOp))) : Bool :=
  !((all_cigar.getD 0 []).filter (fun c => c.length != 100)).isEmpty ||
  !((all_cigar.getD 1 []).filter (fun c => c.length != 100)).isEmpty

/-! ## Input VCF validation (gen_reads.py lines 325-357) -/

/-- Modelled from the spec: `ALLOWED_NUCL` from
`source/constants_and_models.py`, the allowed nucleotide characters
{A, C, G, T} (data model §3). -/
def ALLOWED_NUCL : List Char := ['A', 'C', 'G', 'T']

/-- One input VCF record after parsing, as used by the validation loop:
`pos` is the 1-based `POS` field, `ref` the `REF` allele, and `alt_split`
the comma-split then per-sample allele-split `ALT` field (external
interfaces §6; `source/vcf_func.py` is modelled from the spec). -/
structure VcfRow where
  pos : ℕ
  ref : List Char
  alt_split : List (List (List Char))
  deriving DecidableEq, Repr

/-- Reference slice compared against a record's REF allele, lines 329-331:
`ref_index[chrom].seq[POS-1 : POS-1+len(REF)]` (1-based VCF `POS`, so the
model assumes `pos ≥ 1` as guaranteed by the VCF format). -/
def r_seq_of (refseq : List Char) (row : VcfRow) : List Char :=
  (refseq.drop (row.pos - 1)).take row.ref.length

/-- Check of lines 333-334: some parsed alt allele contains a character
outside `ALLOWED_NUCL`. -/
def any_bad_nucl (row : VcfRow) : Bool :=
  (row.alt_split.flatten).any (fun allele => allele.any (fun ch => !(ALLOWED_NUCL.contains ch)))

/-- First validation bucket, line 336: the reference slice does not equal
the record's REF allele. -/
def ref_mismatch (refseq : List Char) (row : VcfRow) : Bool :=
  decide (r_seq_of refseq row ≠ row.ref)

/-- Second validation bucket, line 341: the reference slice contains an `N`. -/
def n_overlap (refseq : List Char) (row : VcfRow) : Bool :=
  (r_seq_of refseq row).contains 'N'

/-- Record passes all three Variant invariants of data model §3. -/
def row_valid (refseq : List Char) (row : VcfRow) : Bool :=
  !ref_mismatch refseq row && !n_overlap refseq row && !any_bad_nucl row

/-- Embedding of the per-contig validation loop, lines 325-357: each record
is kept, or dropped into exactly one of the three skip buckets
(ref-mismatch, N-overlap, non-ACGT alt), tested in that `elif` order.
Returns the surviving records and the three `n_skipped` counters. -/
def validate_variants (refseq : List Char) : List VcfRow → List VcfRow × ℕ × ℕ × ℕ
  | [] => ([], 0, 0, 0)
  | row :: rest =>
    let t := validate_variants refseq rest
    if ref_mismatch refseq row then (t.1, t.2.1 + 1, t.2.2.1, t.2.2.2)
    else if n_overlap refseq row then (t.1, t.2.1, t.2.2.1 + 1, t.2.2.2)
    else if any_bad_nucl row then (t.1, t.2.1, t.2.2.1, t.2.2.2 + 1)
    else (row :: t.1, t.2)

/-- Concrete all-`A` reference used to exhibit a record that survives
validation. -/
def demo_ref : List Char := List.replicate 10 'A'

/-- Concrete VCF record (SNP `A → G` at 1-based position 5) that satisfies
all three Variant invariants on `demo_ref`. -/
def demo_row : VcfRow := { pos := 5, ref := ['A'], alt_split := [[['G']]] }

/-! ## Mutation-rate argument validation (gen_reads.py lines 208-212) -/

/-- Outcome of processing one numeric command-line value: either the run
terminates with exit code 1, or it proceeds with the (possibly cleared)
value. -/
inductive ArgOutcome where
  | exit1 : ArgOutcome
  | proceed : Option ℚ → ArgOutcome
  deriving DecidableEq, Repr

/-- Modelled from the spec: `is_in_range` from `source/input_checking.py`
returns whether the value lies in the closed range; §7 (input validation)
says an out-of-range numeric fails with exit code 1 before any output. -/
def is_in_range_ok (x lo hi : ℚ) : Bool := decide (lo ≤ x) && decide (x ≤ hi)

/-- Embedding of lines 208-212 of `gen_reads.py`: a negative `-M` value is
replaced by `None` (unset); only a still-present value is then range-checked
against `[0, 0.3]`, with failure terminating the run (exit code 1). -/
def process_mut_rate (m : ℚ) : ArgOutcome :=
  let r : Option ℚ := if m < 0 then none else some m
  match r with
  | none => ArgOutcome.proceed none
  | some v =>
    if v ≠ -1 then
      if is_in_range_ok v 0 (3 / 10) then ArgOutcome.proceed (some v) else ArgOutcome.exit1
    else ArgOutcome.proceed (some v)

/-! ## Read budget per window (gen_reads.py lines 632-648) -/

/-- Embedding of the `reads_to_sample` computation, lines 632-648: Python
`int()` truncation of `window_span * coverage [* coverage_avg] / (k * read_len)`
plus 1, with `k = 2` for paired-end and `k = 1` for single-end, dropping
`coverage_avg` when `force_coverage` is set; finally a budget of exactly 1
is zeroed when the window's coverage sum is below the low-coverage
threshold (lines 645-648). -/
def reads_to_sample_code (paired_end force_coverage : Bool) (window_span : ℤ)
    (coverage cavg : ℚ) (read_len : ℤ) (cov_sum low_thresh : ℚ) : ℤ :=
  let r : ℤ :=
    if paired_end then
      if force_coverage then pyint (((window_span : ℚ) * coverage) / (2 * (read_len : ℚ))) + 1
      else pyint (((window_span : ℚ) * coverage * cavg) / (2 * (read_len : ℚ))) + 1
    else
      if force_coverage then pyint (((window_span : ℚ) * coverage) / ((read_len : ℚ))) + 1
      else pyint (((window_span : ℚ) * coverage * cavg) / ((read_len : ℚ))) + 1
  if r == 1 && decide (cov_sum < low_thresh) then 0 else r

/-! ## Span scheduling (gen_reads.py lines 461-467) -/

/-- Line 463: `number_target_windows = max([1, (final - initial) // target_size])`. -/
def number_target_windows (ip fp ts : ℕ) : ℕ := max 1 ((fp - ip) / ts)

/-- Line 464: `base_pair_distance = int((final - initial) / float(number_target_windows))`,
a float division truncated by `int()`. -/
def base_pair_distance (ip fp ts : ℕ) : ℤ :=
  pyint (((fp : ℚ) - (ip : ℚ)) / ((number_target_windows ip fp ts : ℕ) : ℚ))

/-- Line 467: the whole span is skipped exactly when
`number_target_windows == 1 and (final - initial) < overlap_min_window_size`. -/
def span_is_skipped (ip fp ts minw : ℕ) : Bool :=
  number_target_windows ip fp ts == 1 && decide (fp - ip < minw)

/-- Embedding of lines 273-277: the artificial fragment-length values for
`--pe mean std`, namely `range(mean - 6*std, mean + 6*std + 1)` filtered to
values strictly greater than the read length. -/
def artificial_fraglen_values (fragment_size fragment_std read_len : ℤ) : List ℤ :=
  (pyrange (fragment_size - 6 * fragment_std) (fragment_size + 6 * fragment_std + 1)).filter
    (fun v => decide (read_len < v))

/-- The paired-end `overlap_min_window_size` of line 443,
`max(fraglen_distribution.values) + 10`, instantiated at `--pe 1 32` with
read length 10 (the `DiscreteDistribution` of `source/probability.py` storing
the constructor's value list is modelled from the spec §4.1). -/
def overlap_min_demo : ℕ := (pymaxZ (artificial_fraglen_values 1 32 10) + 10).toNat

/-! ## Variants inside the window loop (gen_reads.py lines 423-428, 477-648) -/

/-- A variant tuple as carried through the window loop: position (index 0),
REF allele, alt alleles, and genotype (data model §3; trailing tuple fields
other than the position are opaque payload for the loop logic). -/
structure AVar where
  pos : ℤ
  ref : List Char
  alts : List (List Char)
  gt : List ℕ
  deriving DecidableEq, Repr

/-- Line 427 of `gen_reads.py`: `valid_variants_from_vcf = []`.  The list is
initialized empty at the top of each contig and no later statement of
`main` ever appends to it. -/
def valid_variants_from_vcf : List AVar := []

/-- The VCF-to-array coordinate shift of line 486:
`tuple([variants_position - 1] + list(...))`. -/
def shift_var (v : AVar) : AVar := { v with pos := v.pos - 1 }

/-- Embedding of the collection loop of lines 479-491, iterating from index
`j` with the current `v_index_from_prev` and `updated` flag: a variant with
`start < pos < end` joins the window (shifted by one), the first variant
with `pos ≥ end - overlap - 1` freezes `v_index_from_prev` at its index,
and the loop breaks at the first variant with `pos ≥ end`. -/
def collect_from (s e ov : ℤ) : List AVar → ℕ → ℕ → Bool → List AVar × ℕ
  | [], _, vidx, _ => ([], vidx)
  | v :: rest, j, vidx, updated =>
    let hit := if s < v.pos ∧ v.pos < e then [shift_var v] else []
    let vu := if e - ov - 1 ≤ v.pos ∧ updated = false then (j, true) else (vidx, updated)
    if e ≤ v.pos then (hit, vu.1)
    else
      let tl := collect_from s e ov rest (j + 1) vu.1 vu.2
      (hit ++ tl.1, tl.2)

/-- Entry point of the collection loop: iterate over
`valid_variants[v_index_from_prev:]`, returning `vars_in_window` and the
updated `v_index_from_prev`. -/
def collect_vars_in_window (vv : List AVar) (vidx : ℕ) (s e ov : ℤ) : List AVar × ℕ :=
  collect_from s e ov (vv.drop vidx) vidx vidx false

/-- Per-variant structural buffer of line 497:
`max([max([abs(len(ref) - len(alt)), 1]) for alt in alts])`. -/
def buffer_needed (row : AVar) : ℤ :=
  pymaxZ (row.alts.map (fun alt => max (((row.ref.length : ℤ) - (alt.length : ℤ)).natAbs : ℤ) 1))

/-- Embedding of the end-extension fixpoint of lines 503-514: while some
structural variant has `delta = (end-1) - (pos + buffer) - 2 - overlap < 0`
(first such in list order, Python `break`), grow `end` by `-delta`.  The
fuel argument bounds the iterations; each iteration permanently satisfies
the found row, so `svars.length + 1` steps reach the fixpoint. -/
def adjust_end (svars : List (ℤ × ℤ)) (overlap : ℤ) : ℕ → ℤ → ℤ
  | 0, e => e
  | fuel + 1, e =>
    match svars.find? (fun row => decide (e - 1 - (row.1 + row.2) - 2 - overlap < 0)) with
    | none => e
    | some row => adjust_end svars overlap fuel (e + (row.1 + row.2 + 2 + overlap - (e - 1)))

/-- Embedding of the carry loop of lines 618-622: append to the fresh
`vars_from_prev_overlap` every applied variant with
`pos ≥ end - overlap - 1`. -/
def carry_from_applied (applied : List AVar) (we overlap : ℤ) : List AVar :=
  applied.foldl (fun acc row => if we - overlap - 1 ≤ row.pos then acc ++ [row] else acc) []

/-- Embedding of the coverage-modifier computation of lines 538-553:
with no target BED the window is all-`1.0`; with targets but an absent
contig it is all-`off_target_scalar`; otherwise each position scores `1.0`
(counting a target hit) when `bisect(target_regions[chrom], j)` is even and
`off_target_scalar` when it is odd.  Returns `coverage_dat[2]` and
`target_hits`.  The flat sorted per-contig interval-endpoint lists produced
by `source/bed_func.parse_bed` are modelled from the spec (§6, BED input). -/
def coverage_and_hits (tr : List (String × List ℤ)) (chrom : String) (ws we : ℤ)
    (ots : ℚ) : List ℚ × ℕ :=
  if tr.isEmpty then (List.replicate (we - ws).toNat 1, 0)
  else
    match tr.lookup chrom with
    | none => (List.replicate (we - ws).toNat ots, 0)
    | some regions =>
      (pyrange ws we).foldl
        (fun acc j =>
          if pybisect regions j % 2 == 0 then (acc.1 ++ [(1 : ℚ)], acc.2 + 1)
          else (acc.1 ++ [ots], acc.2))
        ([], 0)

/-- Loop-invariant context of the per-span window loop: configuration and
per-span quantities of `main` that no window iteration mutates. -/
structure StepCtx where
  vvars : List AVar
  overlap : ℤ
  read_len : ℤ
  minw : ℤ
  final_position : ℤ
  bpd : ℤ
  off_target_discard : Bool
  paired_end : Bool
  force_coverage : Bool
  only_vcf : Bool
  coverage : ℚ
  low_cov_thresh : ℚ
  off_target_scalar : ℚ
  target_regions : List (String × List ℤ)
  chrom : String

/-- Mutable state threaded from one window iteration to the next:
`start`, `end`, `v_index_from_prev`, `vars_from_prev_overlap` and
`is_last_time` (lines 470-475). -/
structure WinState where
  wstart : ℤ
  wend : ℤ
  vidx : ℕ
  carry : List AVar
  isLast : Bool
  deriving DecidableEq, Repr

/-- Values computed by a window iteration before the skip decision
(lines 479-567); none of them reads `vars_from_prev_overlap`. -/
structure WinPre where
  vars_in_window : List AVar
  vidx1 : ℕ
  e2 : ℤ
  next_start : ℤ
  next_end : ℤ
  last1 : Bool
  cov : List ℚ
  target_hits : ℕ
  skip : Bool

/-- Embedding of lines 479-567 of one window iteration: collect the VCF
variants of the window, extend `end` past structural variants, compute
`next_start`/`next_end` (possibly entering the terminal shrunken window,
lines 515-519), build the coverage modifiers, and take the three skip
decisions of lines 554-567 (off-target discard, low coverage sum, window
narrower than `overlap_min_window_size`). -/
def window_pre (ctx : StepCtx) (ws we : ℤ) (vidx : ℕ) (isLast : Bool) : WinPre :=
  let cw := collect_vars_in_window ctx.vvars vidx ws we ctx.overlap
  let svars := cw.1.map (fun row => (row.pos - 1, buffer_needed row))
  let e1 := adjust_end svars ctx.overlap (svars.length + 1) we
  let ns := e1 - ctx.overlap
  let ne := min (ns + ctx.bpd) ctx.final_position
  let e2 := if ne - ns < ctx.bpd then ne else e1
  let last1 := if ne - ns < ctx.bpd then true else isLast
  let ch := coverage_and_hits ctx.target_regions ctx.chrom ws e2 ctx.off_target_scalar
  let skip := (ctx.off_target_discard && decide ((ch.2 : ℤ) ≤ ctx.read_len)) ||
    decide (ch.1.sum < ctx.low_cov_thresh) || decide (e2 - ws < ctx.minw)
  { vars_in_window := cw.1, vidx1 := cw.2, e2 := e2, next_start := ns, next_end := ne,
    last1 := last1, cov := ch.1, target_hits := ch.2, skip := skip }

/-- Observable outcome of one window iteration: the window bounds actually
used, whether it was skipped, the variant list handed to
`sequences.insert_mutations` (line 599), and the read budget of the
sampling loop (lines 632-651). -/
structure WinResult where
  rstart : ℤ
  rend : ℤ
  skipped : Bool
  inserted : List AVar
  reads : ℤ
  deriving DecidableEq, Repr

/-- One full iteration of the `while True` window loop (lines 477-848).
The applied-variant list returned by `sequences.random_mutations()`
(line 600) and the window-average coverage multiplier returned by
`sequences.init_coverage` (lines 604-608) live in `source/SequenceContainer.py`
and are modelled from the spec (§4.6.3-4) as the parameters `applied` and
`cavg`.  A skipped window advances with an emptied carry list (lines
569-578); a sampled window inserts `carry ++ vars_in_window`, computes its
read budget, filters the applied variants into the next carry list (lines
618-622), and advances (lines 843-848).  The returned state is `none` when
the loop `break`s. -/
def window_step (ctx : StepCtx) (applied : List AVar) (cavg : ℚ) (st : WinState) :
    WinResult × Option WinState :=
  let p := window_pre ctx st.wstart st.wend st.vidx st.isLast
  if p.skip then
    (⟨st.wstart, p.e2, true, [], 0⟩,
     if p.last1 then none
     else some ⟨p.next_start, p.next_end, p.vidx1, [], decide (ctx.final_position ≤ p.next_end)⟩)
  else
    let inserted := st.carry ++ p.vars_in_window
    let carry1 := carry_from_applied applied p.e2 ctx.overlap
    let rts : ℤ :=
      if ctx.only_vcf then 0
      else reads_to_sample_code ctx.paired_end ctx.force_coverage (p.e2 - st.wstart)
        ctx.coverage cavg ctx.read_len p.cov.sum ctx.low_cov_thresh
    (⟨st.wstart, p.e2, false, inserted, rts⟩,
     if p.last1 then none
     else some ⟨p.next_start, p.next_end, p.vidx1, carry1, decide (ctx.final_position ≤ p.next_end)⟩)

/-- The window loop over one non-N span, producing the per-window outcomes.
The oracles `applied_or` and `cavg_or` supply the `SequenceContainer`
results (random mutations, average coverage multiplier) of the k-th
iteration; `fuel` bounds the iteration count. -/
def window_loop (ctx : StepCtx) (applied_or : ℕ → List AVar) (cavg_or : ℕ → ℚ) :
    ℕ → ℕ → WinState → List WinResult
  | 0, _, _ => []
  | fuel + 1, k, st =>
    match window_step ctx (applied_or k) (cavg_or k) st with
    | (res, none) => [res]
    | (res, some st1) => res :: window_loop ctx applied_or cavg_or fuel (k + 1) st1

/-- Concrete applied variant away from the overlap zone of the window
`[0, 60)` with overlap 10. -/
def avar_mid : AVar := ⟨40, ['A'], [['G']], [1]⟩

/-- Concrete applied variant inside the overlap zone
(`pos ≥ end - overlap - 1 = 49`) of the window `[0, 60)` with overlap 10. -/
def avar_edge : AVar := ⟨55, ['A'], [['G']], [1]⟩

/-- Concrete single-end loop context (read length 10, overlap 10,
`overlap_min_window_size` 20, pitch 60, no target BED, low-coverage
threshold 50) whose first window `[0, 60)` is sampled, not skipped. -/
def ctx_sampled : StepCtx :=
  { vvars := [], overlap := 10, read_len := 10, minw := 20, final_position := 10000,
    bpd := 60, off_target_discard := false, paired_end := false, force_coverage := false,
    only_vcf := false, coverage := 1, low_cov_thresh := 50, off_target_scalar := 0,
    target_regions := [], chrom := "chr1" }

/-- The same loop context with the discard-offtarget flag set and still no
target BED: every window of the contig is then skipped. -/
def ctx_offdiscard : StepCtx :=
  { ctx_sampled with off_target_discard := true }

/-! ## Helper lemmas -/

/-- The carry loop of lines 618-622 is an order-preserving filter of the
applied-variant list by `pos ≥ end - overlap - 1`. -/
theorem carry_foldl_eq_filter_from (we overlap : ℤ) (l acc : List AVar) :
    l.foldl (fun a row => if we - overlap - 1 ≤ row.pos then a ++ [row] else a) acc =
      acc ++ l.filter (fun v => decide (we - overlap - 1 ≤ v.pos)) := by
  induction l generalizing acc with
  | nil => simp
  | cons x xs ih =>
    rw [List.foldl_cons, List.filter_cons, ih]
    by_cases hx : we - overlap - 1 ≤ x.pos
    · rw [if_pos hx, if_pos (by exact decide_eq_true hx)]
      simp
    · rw [if_neg hx, if_neg (by simpa using hx)]

/-- With no applicable target intervals the coverage computation records
zero target hits. -/
theorem coverage_hits_zero (tr : List (String × List ℤ)) (chrom : String)
    (ws we : ℤ) (ots : ℚ) (h : tr = [] ∨ tr.lookup chrom = none) :
    (coverage_and_hits tr chrom ws we ots).2 = 0 := by
  rcases h with h1 | h2
  · subst h1; simp [coverage_and_hits]
  · by_cases he : tr.isEmpty
    · simp [coverage_and_hits, he]
    · simp [coverage_and_hits, he, h2]

/-- Truncation toward zero agrees with the floor on nonnegative rationals. -/
theorem pyint_of_nonneg {q : ℚ} (h : 0 ≤ q) : pyint q = ⌊q⌋ := by
  simp [pyint, h]

/-! ## Claim theorems -/

set_option maxRecDepth 4000 in
/-- C1 (code_bug evidence): with `read_len = 150` and every CIGAR consuming
exactly `read_len = 150` read bases, the cigar check of lines 581-596 still
aborts the run, because it compares CIGAR lengths against the hardcoded
literal `100` rather than against `read_len`; conversely a CIGAR of 100
consumed bases (a deviation when `read_len = 150`) does not trigger it. -/
theorem c1_cigar_check_hardcodes_100 :
    consumed_read_bases (List.replicate 150 CigarOp.M) = 150 ∧
    cigar_check_fires [[List.replicate 150 CigarOp.M], [List.replicate 150 CigarOp.M]] = true ∧
    consumed_read_bases (List.replicate 100 CigarOp.M) = 100 ∧
    cigar_check_fires [[List.replicate 100 CigarOp.M], [List.replicate 100 CigarOp.M]] = false := by
  decide

/-- C2 (code_bug evidence): a record that survives the validation of lines
325-357 (here the SNP `demo_row` on `demo_ref`) is never collected into any
window, because `valid_variants_from_vcf` (line 427) is initialized empty,
never populated from the validated `input_variants`, and is the only list
the collection loop of lines 481-491 reads: `vars_in_window` is therefore
empty for every window `[start, end)`. -/
theorem c2_validated_vcf_variants_never_collected :
    (validate_variants demo_ref [demo_row]).1 = [demo_row] ∧
    valid_variants_from_vcf = [] ∧
    ∀ (vidx : ℕ) (s e ov : ℤ),
      (collect_vars_in_window valid_variants_from_vcf vidx s e ov).1 = [] := by
  refine ⟨by decide, rfl, fun vidx s e ov => ?_⟩
  simp [collect_vars_in_window, valid_variants_from_vcf, collect_from]

/-- C7: the validation loop of lines 325-357 keeps exactly the records
satisfying all three Variant invariants, and counts every dropped record in
exactly one of the three buckets (ref-mismatch; N-overlap among the
ref-matching; non-ACGT alt among the remaining), in that order. -/
theorem c7_validation_drops_and_buckets (refseq : List Char) (rows : List VcfRow) :
    (validate_variants refseq rows).1 = rows.filter (row_valid refseq) ∧
    (validate_variants refseq rows).2.1 = rows.countP (fun r => ref_mismatch refseq r) ∧
    (validate_variants refseq rows).2.2.1 =
      rows.countP (fun r => !ref_mismatch refseq r && n_overlap refseq r) ∧
    (validate_variants refseq rows).2.2.2 =
      rows.countP (fun r => !ref_mismatch refseq r && !n_overlap refseq r && any_bad_nucl r) := by
  induction rows with
  | nil => simp [validate_variants]
  | cons r rs ih =>
    obtain ⟨h1, h2, h3, h4⟩ := ih
    cases hm : ref_mismatch refseq r <;> cases hn : n_overlap refseq r <;>
      cases hb : any_bad_nucl r <;>
      simp [validate_variants, row_valid, List.filter_cons, List.countP_cons,
        hm, hn, hb, h1, h2, h3, h4]

/-- C8 (counterexample): a supplied mutation-rate rescale value of `-1/2`
is strictly below the valid range `[0, 0.3]`, yet the run does not
terminate with exit code 1: lines 208-209 silently replace any negative
`-M` value by `None` and the range check is never reached. -/
theorem c8_negative_rate_not_rejected :
    ((-1 : ℚ) / 2 < 0) ∧ process_mut_rate (-1 / 2) = ArgOutcome.proceed none := by
  have hneg : ((-1 : ℚ) / 2 < 0) := by norm_num
  refine ⟨hneg, ?_⟩
  simp only [process_mut_rate, if_pos hneg]

/-- C8 (amended): the mutation-rate rescale validation of lines 208-212
terminates the run with exit code 1 exactly when the supplied value exceeds
0.3; every negative value is treated as unset and the run proceeds. -/
theorem c8_only_upper_bound_enforced (m : ℚ) :
    process_mut_rate m = ArgOutcome.exit1 ↔ 3 / 10 < m := by
  unfold process_mut_rate
  by_cases hm : m < 0
  · simp only [if_pos hm]
    constructor
    · intro h; exact absurd h (by simp)
    · intro h; linarith
  · simp only [if_neg hm]
    have hm1 : m ≠ -1 := by intro h; apply hm; rw [h]; norm_num
    simp only [if_pos hm1, is_in_range_ok]
    push_neg at hm
    by_cases hub : m ≤ 3 / 10
    · rw [if_pos (by simp [hm, hub])]
      constructor
      · intro h; exact absurd h (by simp)
      · intro h; linarith
    · rw [if_neg (by simp [hub])]
      constructor
      · intro _; linarith [not_le.mp hub]
      · intro _; rfl

/-- C4 (counterexample): for a single-end window of span 201 at coverage 1
with average coverage multiplier 1 and read length 100, lines 641-643
compute `int(2.01) + 1 = 3` reads, while the claimed formula
`ceil(2.01) + 1` gives 4. -/
theorem c4_truncation_not_ceiling :
    reads_to_sample_code false false 201 1 1 100 50 50 = 3 ∧
    ⌈((201 : ℤ) : ℚ) * 1 * 1 / (1 * ((100 : ℤ) : ℚ))⌉ + 1 = 4 := by
  constructor
  · simp only [reads_to_sample_code, pyint, Bool.false_eq_true, if_false]
    norm_num
  · rw [show ((201 : ℤ) : ℚ) * 1 * 1 / (1 * ((100 : ℤ) : ℚ)) = 201 / 100 by norm_num]
    have hc : ⌈(201 : ℚ) / 100⌉ = 3 := by
      rw [Int.ceil_eq_iff]
      norm_num
    rw [hc]
    decide

/-- C4 (amended): for every window that reaches read sampling (its coverage
sum is at least the low-coverage threshold) and nonnegative parameters, the
read budget of lines 632-648 equals the floor (Python `int` truncation) of
`window_span * coverage * avg_coverage_multiplier / (k * read_len)` plus 1,
with `k = 2` for paired-end, `k = 1` for single-end, and the multiplier
taken as 1 when `force_coverage` is set. -/
theorem c4_floor_budget (pe fc : Bool) (span : ℤ) (cov cavg : ℚ) (rl : ℤ)
    (cs low : ℚ) (hspan : 0 ≤ span) (hcov : 0 ≤ cov) (hcavg : 0 ≤ cavg)
    (hrl : 0 < rl) (hcs : low ≤ cs) :
    reads_to_sample_code pe fc span cov cavg rl cs low =
      ⌊(span : ℚ) * cov * (if fc then 1 else cavg) / ((if pe then 2 else 1) * (rl : ℚ))⌋ + 1 := by
  have hlt : decide (cs < low) = false := decide_eq_false (not_lt.mpr hcs)
  have hrl2 : (0 : ℚ) ≤ (rl : ℚ) := by exact_mod_cast le_of_lt hrl
  have hspan2 : (0 : ℚ) ≤ (span : ℚ) := by exact_mod_cast hspan
  unfold reads_to_sample_code
  simp only [hlt, Bool.and_false, Bool.false_eq_true, if_false]
  cases pe <;> cases fc <;>
    simp only [Bool.false_eq_true, if_false, eq_self_iff_true, if_true] <;>
    rw [pyint_of_nonneg (by positivity)] <;>
    ring_nf

/-- C4 witness: the amended budget formula applied at the concrete
single-end window of span 201, coverage 1, multiplier 1, read length 100. -/
theorem c4_floor_budget_witness :
    (50 : ℚ) ≤ 50 ∧
    reads_to_sample_code false false 201 1 1 100 50 50 =
      ⌊((201 : ℤ) : ℚ) * 1 * (if false then 1 else 1) /
        ((if false then 2 else 1) * ((100 : ℤ) : ℚ))⌋ + 1 :=
  ⟨le_refl 50,
   c4_floor_budget false false 201 1 1 100 50 50 (by norm_num) (by norm_num)
     (by norm_num) (by norm_num) (le_refl 50)⟩

set_option maxRecDepth 8000 in
/-- C6 (counterexample): with `--pe 1 32` and read length 10 the artificial
fragment-length values reach 193, so `overlap_min_window_size = 203` and
`target_size = 100 * fragment_size = 100`; the non-N span `[0, 200)` is
narrower than `overlap_min_window_size`, yet line 467 does not skip it,
because `number_target_windows = 200 // 100 = 2 ≠ 1`. -/
theorem c6_small_span_not_skipped :
    200 - 0 < overlap_min_demo ∧
    span_is_skipped 0 200 (100 * 1) overlap_min_demo = false := by
  decide

/-- C6 (amended): the scheduler of lines 461-467 computes
`num_windows = max(1, (F - I) // target_size)`, walks with base pitch
`(F - I) // num_windows` (the `int()` of the float division equals the
integer division), and skips the span exactly when `num_windows = 1` and
`F - I < overlap_min_window_size`. -/
theorem c6_scheduler_amended (ip fp ts minw : ℕ) (h : ip ≤ fp) :
    number_target_windows ip fp ts = max 1 ((fp - ip) / ts) ∧
    base_pair_distance ip fp ts = (((fp - ip) / number_target_windows ip fp ts : ℕ) : ℤ) ∧
    (span_is_skipped ip fp ts minw = true ↔
      number_target_windows ip fp ts = 1 ∧ fp - ip < minw) := by
  refine ⟨rfl, ?_, ?_⟩
  · unfold base_pair_distance
    have hcast : ((fp : ℚ) - (ip : ℚ)) = ((fp - ip : ℕ) : ℚ) := by
      rw [Nat.cast_sub h]
    rw [hcast, pyint_of_nonneg (div_nonneg (Nat.cast_nonneg _) (Nat.cast_nonneg _)),
      Rat.floor_natCast_div_natCast]
    exact (Int.ofNat_tdiv _ _).symm
  · simp [span_is_skipped]

/-- C6 witness: the amended scheduler facts at the span `[0, 200)` with
`target_size = 100` and `overlap_min_window_size = 203`: two windows of
pitch 100, and the span is not skipped. -/
theorem c6_scheduler_amended_witness :
    (0 : ℕ) ≤ 200 ∧
    (number_target_windows 0 200 100 = max 1 ((200 - 0) / 100) ∧
     base_pair_distance 0 200 100 = (((200 - 0) / number_target_windows 0 200 100 : ℕ) : ℤ) ∧
     (span_is_skipped 0 200 100 203 = true ↔
       number_target_windows 0 200 100 = 1 ∧ 200 - 0 < 203)) :=
  ⟨Nat.zero_le 200, c6_scheduler_amended 0 200 100 203 (Nat.zero_le 200)⟩

/-- Evaluation of the first-window precomputation in the concrete sampled
context: the window `[0, 60)` is neither skipped nor terminal. -/
theorem window_pre_ctx_sampled :
    (window_pre ctx_sampled 0 60 0 false).skip = false ∧
    (window_pre ctx_sampled 0 60 0 false).last1 = false := by
  have hsum : (List.replicate 60 (1 : ℚ)).sum = 60 := by
    rw [List.sum_replicate]; norm_num
  have hlt : ¬ ((60 : ℚ) < 50) := by norm_num
  simp [window_pre, ctx_sampled, collect_vars_in_window, collect_from, adjust_end,
    coverage_and_hits, hsum, hlt]
  norm_num

/-- C5: whenever a window iteration samples (is not skipped) and the loop
continues, the carry list handed to the next window state is exactly the
applied variants with `pos ≥ end - overlap - 1` (lines 618-622), where
`end` is the window's final end position, packaged with the next window
bounds as the whole propagated state. -/
theorem c5_sampled_window_carry (ctx : StepCtx) (applied : List AVar) (cavg : ℚ)
    (s e : ℤ) (vidx : ℕ) (c : List AVar) (last : Bool)
    (hskip : (window_pre ctx s e vidx last).skip = false)
    (hlast : (window_pre ctx s e vidx last).last1 = false) :
    (window_step ctx applied cavg ⟨s, e, vidx, c, last⟩).1.skipped = false ∧
    (window_step ctx applied cavg ⟨s, e, vidx, c, last⟩).1.rend =
      (window_pre ctx s e vidx last).e2 ∧
    (window_step ctx applied cavg ⟨s, e, vidx, c, last⟩).2 =
      some ⟨(window_pre ctx s e vidx last).next_start,
        (window_pre ctx s e vidx last).next_end,
        (window_pre ctx s e vidx last).vidx1,
        applied.filter
          (fun v => decide ((window_pre ctx s e vidx last).e2 - ctx.overlap - 1 ≤ v.pos)),
        decide (ctx.final_position ≤ (window_pre ctx s e vidx last).next_end)⟩ := by
  have hfilter : carry_from_applied applied (window_pre ctx s e vidx last).e2 ctx.overlap =
      applied.filter
        (fun v => decide ((window_pre ctx s e vidx last).e2 - ctx.overlap - 1 ≤ v.pos)) := by
    unfold carry_from_applied
    rw [carry_foldl_eq_filter_from, List.nil_append]
  simp only [window_step, hskip, Bool.false_eq_true, if_false, hlast, hfilter]
  exact ⟨trivial, trivial, trivial⟩

/-- C5 witness: in the concrete sampled context, the carry handed to the
window after `[0, 60)` keeps exactly the applied variant at position 55
(`55 ≥ 60 - 10 - 1`) and drops the one at position 40. -/
theorem c5_sampled_window_carry_witness :
    (window_pre ctx_sampled 0 60 0 false).skip = false ∧
    ((window_step ctx_sampled [avar_mid, avar_edge] 1 ⟨0, 60, 0, [], false⟩).1.skipped = false ∧
     (window_step ctx_sampled [avar_mid, avar_edge] 1 ⟨0, 60, 0, [], false⟩).1.rend =
       (window_pre ctx_sampled 0 60 0 false).e2 ∧
     (window_step ctx_sampled [avar_mid, avar_edge] 1 ⟨0, 60, 0, [], false⟩).2 =
       some ⟨(window_pre ctx_sampled 0 60 0 false).next_start,
         (window_pre ctx_sampled 0 60 0 false).next_end,
         (window_pre ctx_sampled 0 60 0 false).vidx1,
         [avar_mid, avar_edge].filter
           (fun v => decide ((window_pre ctx_sampled 0 60 0 false).e2 - ctx_sampled.overlap - 1 ≤ v.pos)),
         decide (ctx_sampled.final_position ≤ (window_pre ctx_sampled 0 60 0 false).next_end)⟩) :=
  ⟨window_pre_ctx_sampled.1,
   c5_sampled_window_carry ctx_sampled [avar_mid, avar_edge] 1 0 60 0 [] false
     window_pre_ctx_sampled.1 window_pre_ctx_sampled.2⟩

/-- C9: when the discard-offtarget flag is set but no target regions apply
(no target BED was given, or the contig has no target intervals), the
coverage computation records zero target hits, `0 ≤ read_len` makes the
off-target test of lines 555-557 fire, and the window is skipped with no
variants inserted and a read budget of zero — for every window. -/
theorem c9_offtarget_discard_skips_every_window (ctx : StepCtx) (applied : List AVar)
    (cavg : ℚ) (s e : ℤ) (vidx : ℕ) (c : List AVar) (last : Bool)
    (hd : ctx.off_target_discard = true) (hrl : 0 ≤ ctx.read_len)
    (ht : ctx.target_regions = [] ∨ ctx.target_regions.lookup ctx.chrom = none) :
    (window_pre ctx s e vidx last).target_hits = 0 ∧
    (window_pre ctx s e vidx last).skip = true ∧
    (window_step ctx applied cavg ⟨s, e, vidx, c, last⟩).1.skipped = true ∧
    (window_step ctx applied cavg ⟨s, e, vidx, c, last⟩).1.inserted = [] ∧
    (window_step ctx applied cavg ⟨s, e, vidx, c, last⟩).1.reads = 0 := by
  have hhits : ∀ we : ℤ,
      (coverage_and_hits ctx.target_regions ctx.chrom s we ctx.off_target_scalar).2 = 0 :=
    fun we => coverage_hits_zero _ _ _ _ _ ht
  have hpre : (window_pre ctx s e vidx last).target_hits = 0 := by
    simp only [window_pre]
    exact hhits _
  have hskip : (window_pre ctx s e vidx last).skip = true := by
    simp only [window_pre, hd]
    rw [hhits]
    simp [hrl]
  refine ⟨hpre, hskip, ?_, ?_, ?_⟩ <;>
    simp only [window_step, hskip, if_true]

/-- C9 witness: the off-target skip in the concrete discard context with an
empty target-region map. -/
theorem c9_offtarget_discard_witness :
    ctx_offdiscard.off_target_discard = true ∧
    ((window_pre ctx_offdiscard 0 60 0 false).target_hits = 0 ∧
     (window_pre ctx_offdiscard 0 60 0 false).skip = true ∧
     (window_step ctx_offdiscard [] 1 ⟨0, 60, 0, [], false⟩).1.skipped = true ∧
     (window_step ctx_offdiscard [] 1 ⟨0, 60, 0, [], false⟩).1.inserted = [] ∧
     (window_step ctx_offdiscard [] 1 ⟨0, 60, 0, [], false⟩).1.reads = 0) :=
  ⟨rfl,
   c9_offtarget_discard_skips_every_window ctx_offdiscard [] 1 0 60 0 [] false
     rfl (by decide) (Or.inl rfl)⟩

/-- C10: a skipped window ignores and empties the carried variant list:
the remaining loop behaves identically whether the skipped window's
incoming carry was `c` or empty, and the state handed to the next
iteration always carries the empty list (lines 569-578). -/
theorem c10_skipped_window_drops_carry (ctx : StepCtx) (ao : ℕ → List AVar) (co : ℕ → ℚ)
    (fuel k : ℕ) (s e : ℤ) (vidx : ℕ) (last : Bool) (c : List AVar)
    (h : (window_pre ctx s e vidx last).skip = true) :
    window_loop ctx ao co (fuel + 1) k ⟨s, e, vidx, c, last⟩ =
      window_loop ctx ao co (fuel + 1) k ⟨s, e, vidx, [], last⟩ ∧
    ∀ st1, (window_step ctx (ao k) (co k) ⟨s, e, vidx, c, last⟩).2 = some st1 →
      st1.carry = [] := by
  have hstep : ∀ (a : List AVar) (q : ℚ),
      window_step ctx a q ⟨s, e, vidx, c, last⟩ = window_step ctx a q ⟨s, e, vidx, [], last⟩ := by
    intro a q
    simp only [window_step, h, if_true]
  constructor
  · simp only [window_loop]
    rw [hstep]
  · intro st1 h1
    rw [hstep] at h1
    simp only [window_step, h, if_true] at h1
    by_cases hl : (window_pre ctx s e vidx last).last1
    · rw [if_pos hl] at h1
      cases h1
    · rw [if_neg hl] at h1
      obtain rfl := Option.some.inj h1.symm
      rfl

/-- Evaluation of the first-window precomputation in the concrete discard
context: zero target hits with the discard flag set, so the window `[0, 60)`
is skipped. -/
theorem window_pre_ctx_offdiscard_skip :
    (window_pre ctx_offdiscard 0 60 0 false).skip = true := by
  simp [window_pre, ctx_offdiscard, ctx_sampled, collect_vars_in_window, collect_from,
    adjust_end, coverage_and_hits]

/-- C10 witness: with the incoming carry holding the applied variant at
position 55, the skipped window `[0, 60)` of the discard context leaves the
remaining loop unchanged. -/
theorem c10_skipped_window_drops_carry_witness :
    (window_pre ctx_offdiscard 0 60 0 false).skip = true ∧
    window_loop ctx_offdiscard (fun _ => []) (fun _ => 1) 3 0 ⟨0, 60, 0, [avar_edge], false⟩ =
      window_loop ctx_offdiscard (fun _ => []) (fun _ => 1) 3 0 ⟨0, 60, 0, [], false⟩ :=
  ⟨window_pre_ctx_offdiscard_skip,
   (c10_skipped_window_drops_carry ctx_offdiscard (fun _ => []) (fun _ => 1) 2 0 0 60 0 false
     [avar_edge] window_pre_ctx_offdiscard_skip).1⟩
